import Mathlib

/-!
Verification development for the FastyBird miniserver-gateway FB-Bus connector.

Shallow embedding of the Python sources under
`miniserver_gateway/connectors/fb_bus/`:
  - `types/types.py`            (enumerations)
  - `entities/device.py`        (DeviceEntity)
  - `entities/register.py`      (RegisterEntity)
  - `handlers/checking_handler.py`
  - `handlers/reading_handler.py`
  - `handlers/writing_handler.py`
  - `utilities/helpers.py`      (RegistersHelper)
  - `utilities/pairing_helper.py`
  - `transport/pjon.py`
  - `fb_bus_connector.py`       (registry, create_device, publish)

Modelling conventions:
  - Wall-clock time (`time.time()`) is an explicit rational parameter `now`.
  - Python `uuid.uuid4()` results are explicit `Nat` identifier parameters.
  - Raw payload bytes are `Nat` values (each expected `< 256`).
  - Functions that raise in Python return `Except Unit` values.
  - Calls to the transport (`send_packet`, `broadcast_packet`) and the upstream
    container (`propagate_device_state`, ...) are recorded as `Effect`s; the
    transport result is an explicit `sendOk : Bool` environment parameter.
-/

namespace FbBus

/-- Packet identifiers (class `Packets` in `types/types.py`). -/
inductive Packets
  | pairDevice
  | readSingleRegister
  | readMultipleRegisters
  | writeSingleRegister
  | writeMultipleRegisters
  | reportSingleRegister
  | readOneConfiguration
  | writeOneConfiguration
  | reportOneConfiguration
  | ping
  | pong
  | hello
  | getState
  | setState
  | reportState
  | controlDevice
  | pubsubBroadcast
  | pubsubSubscribe
  | pubsubUnsubscribe
  | exceptionPacket
  deriving DecidableEq, Repr

/-- Wire value of each packet identifier (`types/types.py`). -/
def Packets.value : Packets → Nat
  | .pairDevice => 0x01
  | .readSingleRegister => 0x03
  | .readMultipleRegisters => 0x05
  | .writeSingleRegister => 0x07
  | .writeMultipleRegisters => 0x09
  | .reportSingleRegister => 0x0B
  | .readOneConfiguration => 0x0D
  | .writeOneConfiguration => 0x0F
  | .reportOneConfiguration => 0x11
  | .ping => 0x13
  | .pong => 0x15
  | .hello => 0x17
  | .getState => 0x19
  | .setState => 0x1B
  | .reportState => 0x1D
  | .controlDevice => 0x1F
  | .pubsubBroadcast => 0x21
  | .pubsubSubscribe => 0x23
  | .pubsubUnsubscribe => 0x25
  | .exceptionPacket => 0x63

/-- Content byte `FB_CONTENT_TERMINATOR` (`types/types.py`). -/
def FB_CONTENT_TERMINATOR : Nat := 0x00

/-- Content byte `FB_CONTENT_DATA_SPACE` (`types/types.py`). -/
def FB_CONTENT_DATA_SPACE : Nat := 0x20

/-- Register types (class `RegistersTypes` in `types/types.py`). -/
inductive RegistersTypes
  | digitalInput
  | digitalOutput
  | analogInput
  | analogOutput
  deriving DecidableEq, Repr

/-- Wire value of each register type. -/
def RegistersTypes.value : RegistersTypes → Nat
  | .digitalInput => 0x01
  | .digitalOutput => 0x02
  | .analogInput => 0x03
  | .analogOutput => 0x04

/-- Setting kinds (class `SettingsTypes` in `types/types.py`). -/
inductive SettingsTypes
  | device
  | register
  deriving DecidableEq, Repr

/-- Register data types (class `DataTypes` in `types/types.py`). -/
inductive DataTypes
  | unknown
  | uint8
  | uint16
  | uint32
  | int8
  | int16
  | int32
  | float32
  | boolean
  | time
  | date
  | datetime
  deriving DecidableEq, Repr

/-- Gateway-side device lifecycle states (class `DeviceStates` in `db/types.py`). -/
inductive DeviceStates
  | connected
  | disconnected
  | init
  | ready
  | running
  | sleeping
  | stopped
  | lost
  | alert
  | unknown
  deriving DecidableEq, Repr

/-- Values exchanged with registers (Python scalars stored in `RegisterEntity.__value`
and values flowing through `publish` / the codec in `utilities/helpers.py`).
Python ints are `integer`; Python `float`s obtained from `struct.unpack("<f", b)`
are modelled by their IEEE-754 single-precision byte pattern `b` (the
float32-to-float64-to-float32 byte round trip is not interpreted here). -/
inductive Value
  | boolean (b : Bool)
  | integer (i : Int)
  | float32 (bits : List Nat)
  | text (s : String)
  deriving DecidableEq, Repr

/-- `DeviceEntity` (`entities/device.py`).  Fields not read or written by any
claim under verification (description/settings/pub-sub support flags, hardware
and firmware strings, the pairing command and the setting-reading cursor) are
omitted; the remaining fields carry the `__init__` defaults. -/
structure DeviceEntity where
  id : Nat
  address : Nat
  serialNumber : String
  maxPacketLength : Nat
  state : DeviceStates := .unknown
  waitingForPacket : Option Packets := none
  lastPacketTimestamp : ℚ := 0
  attempts : Nat := 0
  samplingTime : ℚ := 10
  readingRegistersTimestamp : ℚ := 0
  readingSettingsTimestamp : ℚ := 0
  lostTimestamp : ℚ := 0
  deriving DecidableEq, Repr

/-- `DeviceEntity.reset_communication`. -/
def DeviceEntity.reset_communication (d : DeviceEntity) : DeviceEntity :=
  { d with waitingForPacket := none, attempts := 0 }

/-- `DeviceEntity.set_state` (`entities/device.py` lines 111-126); `now` models
the `time.time()` call in the `STATE_LOST` branch. -/
def DeviceEntity.set_state (d : DeviceEntity) (now : ℚ) (state : DeviceStates) :
    DeviceEntity :=
  let d := { d with state := state }
  if state = .lost then
    { d.reset_communication with lostTimestamp := now, lastPacketTimestamp := 0 }
  else if state = .ready then
    { d with readingRegistersTimestamp := 0, readingSettingsTimestamp := 0 }
  else
    d

/-- `DeviceEntity.is_ready` (state equals `STATE_RUNNING`). -/
def DeviceEntity.is_ready (d : DeviceEntity) : Bool :=
  d.state = .running

/-- `DeviceEntity.is_lost`. -/
def DeviceEntity.is_lost (d : DeviceEntity) : Bool :=
  d.state = .lost

/-- `DeviceEntity.increment_attempts`. -/
def DeviceEntity.increment_attempts (d : DeviceEntity) : DeviceEntity :=
  { d with attempts := d.attempts + 1 }

/-- `DeviceEntity.set_waiting_for_packet`. -/
def DeviceEntity.set_waiting_for_packet (d : DeviceEntity) (p : Packets) : DeviceEntity :=
  { d with waitingForPacket := some p }

/-- `DeviceEntity.reset_waiting_for_packet`. -/
def DeviceEntity.reset_waiting_for_packet (d : DeviceEntity) : DeviceEntity :=
  { d with waitingForPacket := none }

/-- `DeviceEntity.set_last_packet_timestamp`. -/
def DeviceEntity.set_last_packet_timestamp (d : DeviceEntity) (t : ℚ) : DeviceEntity :=
  { d with lastPacketTimestamp := t }

/-- `DeviceEntity.set_alive` (`entities/device.py` lines 245-250): state back to
`UNKNOWN`, transient communication state cleared, lost timestamp zeroed.
`now` is threaded to `set_state` (whose clock is unread outside the LOST branch). -/
def DeviceEntity.set_alive (d : DeviceEntity) (now : ℚ) : DeviceEntity :=
  { (d.set_state now .unknown).reset_communication with lostTimestamp := 0 }

/-- Observable calls the handlers make on the transport and the upstream
container, in order. -/
inductive Effect
  | sendPacket (address : Nat) (payload : List Nat) (waitingTime : ℚ)
  | broadcastPacket (payload : List Nat) (waitingTime : ℚ)
  | propagateDeviceState (address : Nat) (state : DeviceStates)
  deriving DecidableEq, Repr

/-- `CheckingHandler.__MAX_TRANSMIT_ATTEMPTS`. -/
def MAX_TRANSMIT_ATTEMPTS : Nat := 5

/-- `CheckingHandler.__PING_DELAY` (seconds). -/
def PING_DELAY : ℚ := 15

namespace CheckingHandler

/-- `CheckingHandler.__send_ping_handler` (`checking_handler.py` lines 112-144).
The PING frame is sent with the default (zero) waiting time; `sendOk` is the
boolean result of `send_packet`. -/
def send_ping_handler (now : ℚ) (sendOk : Bool) (device : DeviceEntity) :
    DeviceEntity × List Effect :=
  let output_content : List Nat := [Packets.ping.value, FB_CONTENT_TERMINATOR]
  let effects : List Effect := [.sendPacket device.address output_content 0]
  if sendOk then
    (((device.set_waiting_for_packet .ping |>.set_last_packet_timestamp now)
        |>.increment_attempts), effects)
  else
    (((device.reset_waiting_for_packet |>.set_last_packet_timestamp now)
        |>.increment_attempts), effects)

/-- `CheckingHandler.__send_get_device_state_handler` (`checking_handler.py`
lines 148-178): mutate first, then send with a 1-second waiting time; on send
failure reset the communication state. -/
def send_get_device_state_handler (now : ℚ) (sendOk : Bool) (device : DeviceEntity) :
    DeviceEntity × List Effect :=
  let output_content : List Nat := [Packets.getState.value, FB_CONTENT_TERMINATOR]
  let device := device.increment_attempts |>.set_waiting_for_packet .getState
    |>.set_last_packet_timestamp now
  let effects : List Effect := [.sendPacket device.address output_content 1]
  if sendOk then (device, effects) else (device.reset_communication, effects)

/-- `CheckingHandler.handle` (`checking_handler.py` lines 78-108). -/
def handle (now : ℚ) (sendOk : Bool) (device : DeviceEntity) :
    DeviceEntity × List Effect :=
  let step1 : DeviceEntity × List Effect :=
    if MAX_TRANSMIT_ATTEMPTS ≤ device.attempts then
      let d := device.set_state now .lost
      (d, [.propagateDeviceState d.address d.state])
    else
      (device, [])
  let device1 := step1.1
  if device1.is_lost ∧ PING_DELAY ≤ now - device1.lostTimestamp
      ∧ PING_DELAY ≤ now - device1.lastPacketTimestamp then
    let r := send_ping_handler now sendOk device1
    (r.1, step1.2 ++ r.2)
  else if device1.state = .unknown then
    let r := send_get_device_state_handler now sendOk device1
    (r.1, step1.2 ++ r.2)
  else
    (device1, step1.2)

end CheckingHandler

/-! Registry (`fb_bus_connector.py`).  The connector's `__devices` dict keyed by
the uuid string is modelled as a list of `DeviceEntity` values. -/

/-- `FbBusConnector.get_device_by_address` (`fb_bus_connector.py` lines 376-381):
first device whose address matches. -/
def get_device_by_address (devices : List DeviceEntity) (address : Nat) :
    Option DeviceEntity :=
  devices.find? (fun d => d.address = address)

/-- `FbBusConnector.get_device_by_id` (`fb_bus_connector.py` lines 368-372). -/
def get_device_by_id (devices : List DeviceEntity) (identifier : Nat) :
    Option DeviceEntity :=
  devices.find? (fun d => d.id = identifier)

/-- `FbBusConnector.update_device` (`fb_bus_connector.py` lines 421-423): replace
the stored entry whose id matches. -/
def update_device (devices : List DeviceEntity) (updated : DeviceEntity) :
    List DeviceEntity :=
  devices.map (fun d => if d.id = updated.id then updated else d)

/-- `FbBusConnector.__MAX_ADDRESS`. -/
def MAX_ADDRESS : Nat := 253

/-- `FbBusConnector.create_device` (`fb_bus_connector.py` lines 394-417).
`newId` models the fresh `uuid.uuid4()`; `now` threads the ambient clock to
`set_state` (unread in the `STATE_CONNECTED` branch).  The Python loop
`for i in range(1, self.__MAX_ADDRESS)` scans `1, ..., MAX_ADDRESS - 1` and
breaks at the first address not in `reserved_addresses`; on exhaustion an
`InvalidStateException` is raised, modelled by `.error ()`, leaving the
registry untouched.  On success the new device is stored in the registry
(appended) and returned. -/
def create_device (devices : List DeviceEntity) (newId : Nat) (now : ℚ)
    (serial_number : String) (max_packet_length : Nat) :
    Except Unit DeviceEntity × List DeviceEntity :=
  let reserved_addresses : List Nat := devices.map (fun d => d.address)
  match (List.range' 1 (MAX_ADDRESS - 1)).find?
      (fun i => !(reserved_addresses.contains i)) with
  | none => (.error (), devices)
  | some free_address =>
    let device : DeviceEntity :=
      { id := newId, address := free_address, serialNumber := serial_number,
        maxPacketLength := max_packet_length }
    let device := device.set_state now .connected
    (.ok device, devices ++ [device])

namespace CheckingHandler

/-- `CheckingHandler.__pong_receiver` (`checking_handler.py` lines 186-201):
look the sender up by address, bring it back alive, store it, propagate its
state. -/
def pong_receiver (devices : List DeviceEntity) (now : ℚ) (sender_address : Nat) :
    List DeviceEntity × List Effect :=
  match get_device_by_address devices sender_address with
  | none => (devices, [])
  | some device =>
    let device := device.set_alive now
    (update_device devices device,
      [.propagateDeviceState device.address device.state])

/-- `CheckingHandler.__set_state_receiver` (`checking_handler.py` lines 242-258):
look the sender up, validate the payload length, and do nothing in either
case (the function body ends after the validation). -/
def set_state_receiver (devices : List DeviceEntity) (sender_address : Nat)
    (payload : List Nat) (payload_length : Nat) : List DeviceEntity × List Effect :=
  match get_device_by_address devices sender_address with
  | none => (devices, [])
  | some _ =>
    if payload_length ≠ 3 then
      (devices, [])
    else
      (devices, [])

end CheckingHandler

namespace ReadingHandler

/-! `ReadingHandler.__read_multiple_registers_receiver`
(`reading_handler.py` lines 335-434), digital branch (register type DI or DO).

The Python code turns each payload data byte into its 8-character binary
string, left-padded with zeros, and reverses it, so element `i` of the
resulting list is binary digit `i` of the byte (least-significant first);
`data_byte_bits` lists those digits directly.

The registers of one device and one digital register type are modelled by
their count (`registers_count = len(get_registers_by_type(device, type))`)
together with a value map `vals : Nat → Option Bool`;
`get_register_by_address` succeeds exactly on addresses `< count`, the shape
`__configure_registers` (pairing_helper.py) maintains (registers densely at
addresses `0, ..., count - 1`).  `update_register_value` on address `a`
becomes `set_register_value vals a v`. -/

/-- Binary digits of a data byte, least-significant first, padded to 8
(`reading_handler.py` lines 372-375). -/
def data_byte_bits (b : Nat) : List Nat :=
  [b % 2, b / 2 % 2, b / 4 % 2, b / 8 % 2,
   b / 16 % 2, b / 32 % 2, b / 64 % 2, b / 128 % 2]

/-- Point update of the register-value map (`update_register_value`). -/
def set_register_value (vals : Nat → Option Bool) (address : Nat) (v : Bool) :
    Nat → Option Bool :=
  fun x => if x = address then some v else vals x

/-- Inner `for i in range(8)` loop of the digital branch
(`reading_handler.py` lines 377-392): write bit `i` (as
`True if int(data_byte[i]) & 0x01 else False`) at the running register
address when a register exists there, advance the address, and break once the
address reaches `registers_count`.  Returns the updated value map and the
address where the next byte continues. -/
def process_bits (registers_count : Nat) :
    List Nat → Nat → (Nat → Option Bool) → (Nat → Option Bool) × Nat
  | [], register_address, vals => (vals, register_address)
  | bit :: rest, register_address, vals =>
    let vals := if register_address < registers_count then
        set_register_value vals register_address (bit &&& 0x01 != 0)
      else vals
    if registers_count ≤ register_address + 1 then
      (vals, register_address + 1)
    else
      process_bits registers_count rest (register_address + 1) vals

/-- Outer `while position_byte < (payload_length - 1)` loop of the digital
branch (`reading_handler.py` lines 371-394); `data_bytes` are the payload
bytes at positions `5, ..., payload_length - 2` and `start_address` is the
16-bit start address from payload positions 2-3. -/
def process_data_bytes (registers_count : Nat) :
    List Nat → Nat → (Nat → Option Bool) → (Nat → Option Bool)
  | [], _, vals => vals
  | b :: rest, register_address, vals =>
    let r := process_bits registers_count (data_byte_bits b) register_address vals
    process_data_bytes registers_count rest r.2 r.1

end ReadingHandler

namespace RegistersHelper

/-! Codec (`utilities/helpers.py`, class `RegistersHelper`).  Byte blocks are
`List Nat`; `struct.unpack`/`struct.pack` with formats `"<I"`/`"<i"` are
little-endian 4-byte conversions; `struct.error`/`TypeError` raised on a
wrong-sized block, an out-of-range value, or an unconvertible operand are
modelled by `.error ()`.  For format `"<f"` the unpacked Python float is
modelled by its 4-byte IEEE-754 pattern (`Value.float32`); packing a
non-float operand as `"<f"` (a conversion through IEEE-754, never exercised
by the codec claims) is left out of the model as `.error ()`. -/

/-- Little-endian byte block to natural number (`struct.unpack("<I", ...)`). -/
def le_bytes_to_nat : List Nat → Nat
  | [] => 0
  | b :: rest => b + 256 * le_bytes_to_nat rest

/-- Natural number to little-endian 4-byte block (`struct.pack("<I", ...)`). -/
def nat_to_le_bytes4 (n : Nat) : List Nat :=
  [n % 256, n / 256 % 256, n / 65536 % 256, n / 16777216 % 256]

/-- `RegistersHelper.transform_value_from_bytes` (`helpers.py` lines 184-212):
decode a byte block according to the register's data type.  `.ok none`
models the Python `return None` fall-through. -/
def transform_value_from_bytes (data_type : DataTypes) (write_value : List Nat) :
    Except Unit (Option Value) :=
  match data_type with
  | .float32 =>
    if write_value.length = 4 ∧ write_value.all (fun b => b < 256) then
      .ok (some (.float32 write_value))
    else
      .error ()
  | .uint8 | .uint16 | .uint32 =>
    if write_value.length = 4 ∧ write_value.all (fun b => b < 256) then
      .ok (some (.integer (le_bytes_to_nat write_value)))
    else
      .error ()
  | .int8 | .int16 | .int32 =>
    if write_value.length = 4 ∧ write_value.all (fun b => b < 256) then
      .ok (some (.integer
        (if le_bytes_to_nat write_value < 2 ^ 31 then
          (le_bytes_to_nat write_value : Int)
        else
          (le_bytes_to_nat write_value : Int) - 2 ^ 32)))
    else
      .error ()
  | _ => .ok none

/-- `RegistersHelper.transform_value_to_bytes` (`helpers.py` lines 216-238):
encode a value according to the register's data type.  Python `bool`s are
`int` subclasses, so `"<I"`/`"<i"` pack `True`/`False` as `1`/`0`. -/
def transform_value_to_bytes (data_type : DataTypes) (write_value : Option Value) :
    Except Unit (Option (List Nat)) :=
  match data_type with
  | .float32 =>
    match write_value with
    | some (.float32 bits) => .ok (some bits)
    | _ => .error ()
  | .uint8 | .uint16 | .uint32 =>
    match write_value with
    | some (.integer i) =>
      if 0 ≤ i ∧ i < 2 ^ 32 then .ok (some (nat_to_le_bytes4 i.toNat)) else .error ()
    | some (.boolean b) => .ok (some (nat_to_le_bytes4 (if b then 1 else 0)))
    | _ => .error ()
  | .int8 | .int16 | .int32 =>
    match write_value with
    | some (.integer i) =>
      if -(2 ^ 31) ≤ i ∧ i < 2 ^ 31 then
        .ok (some (nat_to_le_bytes4 (i % (2 ^ 32)).toNat))
      else
        .error ()
    | some (.boolean b) => .ok (some (nat_to_le_bytes4 (if b then 1 else 0)))
    | _ => .error ()
  | _ => .ok none

/-- The encode-after-decode composition
`encode_value(register, decode_value(register, bytes))` of the spec. -/
def round_trip (data_type : DataTypes) (bytes : List Nat) :
    Except Unit (Option (List Nat)) :=
  (transform_value_from_bytes data_type bytes).bind
    (transform_value_to_bytes data_type)

/-- The data types handled by the two integer branches of the codec. -/
def is_integer_data_type : DataTypes → Bool
  | .uint8 | .uint16 | .uint32 | .int8 | .int16 | .int32 => true
  | _ => false

end RegistersHelper

/-- `RegisterEntity.set_data_type` size table (`entities/register.py`
lines 109-135): size in bytes derived from the data type. -/
def data_type_size : DataTypes → Nat
  | .uint8 | .int8 => 1
  | .uint16 | .int16 => 2
  | .uint32 | .int32 | .float32 => 4
  | .boolean => 1
  | _ => 0

/-- `RegisterEntity` (`entities/register.py`).  `size` is kept in sync with
`dataType` by construction (`set_data_type`); `value` is `none` until first
set. -/
structure RegisterEntity where
  id : Nat
  key : String
  channelId : Nat
  deviceId : Nat
  address : Nat
  type : RegistersTypes
  dataType : DataTypes
  value : Option Value := none
  deriving DecidableEq, Repr

/-- `RegisterEntity.is_writable`: type is DO or AO. -/
def RegisterEntity.is_writable (r : RegisterEntity) : Bool :=
  r.type = .digitalOutput ∨ r.type = .analogOutput

/-- Python truthiness (`if write_value:`) of an optional scalar value.  The
truthiness of a float is decided on its IEEE-754 pattern: both zero patterns
are falsy. -/
def Value.truthy : Option Value → Bool
  | none => false
  | some (.boolean b) => b
  | some (.integer i) => i ≠ 0
  | some (.float32 bits) => bits ≠ [0, 0, 0, 0] ∧ bits ≠ [0, 0, 0, 0x80]
  | some (.text s) => s ≠ ""

namespace WritingHandler

/-- `WritingHandler.__PACKET_RESPONSE_DELAY` (0.1 s). -/
def PACKET_RESPONSE_DELAY : ℚ := 1 / 10

/-- `WritingHandler.write_value_to_register` (`writing_handler.py`
lines 77-151).  Looks the owning device up by the register's device id,
bails out unless it is ready, builds the `WRITE_SINGLE_REGISTER` frame (DO:
two bytes `0xFF00`/`0x0000` by truthiness; AO: four bytes from
`transform_value_to_bytes`, dropping the request when that yields `None`;
any other register type: drop), increments the attempt counter, latches the
expected reply, stamps the send time, and sends with a 0.1 s ACK window; on
send failure the communication state is reset.  The register itself is never
modified.  Returns the updated registry, the (unchanged) register, and the
emitted effects. -/
def write_value_to_register (devices : List DeviceEntity) (now : ℚ) (sendOk : Bool)
    (register : RegisterEntity) (write_value : Option Value) :
    List DeviceEntity × RegisterEntity × List Effect :=
  match get_device_by_id devices register.deviceId with
  | none => (devices, register, [])
  | some device =>
    if device.is_ready = false then
      (devices, register, [])
    else
      let header : List Nat :=
        [Packets.writeSingleRegister.value, register.type.value,
         register.address >>> 8, register.address &&& 0xFF]
      let value_bytes : Option (List Nat) :=
        if register.type = .digitalOutput then
          let v : Nat := if Value.truthy write_value then 0xFF00 else 0x0000
          some [v >>> 8, v &&& 0xFF]
        else if register.type = .analogOutput then
          match RegistersHelper.transform_value_to_bytes register.dataType write_value with
          | .ok (some [b0, b1, b2, b3]) => some [b0, b1, b2, b3]
          | _ => none
        else
          none
      match value_bytes with
      | none => (devices, register, [])
      | some vb =>
        let output_content := header ++ vb ++ [FB_CONTENT_TERMINATOR]
        let device := device.increment_attempts
          |>.set_waiting_for_packet .writeSingleRegister
          |>.set_last_packet_timestamp now
        let effects : List Effect :=
          [.sendPacket device.address output_content PACKET_RESPONSE_DELAY]
        if sendOk then
          (update_device devices device, register, effects)
        else
          (update_device (update_device devices device) device.reset_communication,
            register, effects)

end WritingHandler

/-- The expected-value computation of `FbBusConnector.publish`
(`fb_bus_connector.py` lines 181-187): when the resolved register is a DO
and the published value is the string `"toggle"`, the commanded value
becomes `False if register.get_value() is True else True`; Python `is True`
 holds only for the boolean object `True` itself. -/
def publish_expected (register : RegisterEntity) (expected : Option Value) :
    Option Value :=
  if register.type = .digitalOutput ∧ expected = some (.text "toggle") then
    some (.boolean (if register.value = some (.boolean true) then false else true))
  else
    expected

namespace PairingHelper

/-- Python 3 `round(a / n)` for a nonnegative integer `a` and positive `n`:
round half to even.  (`round` receives the exact float quotient; for the
operand sizes reachable here the double rounding of `a / n` never crosses an
integer-half boundary, so the rational definition is exact.) -/
def python_round_div (a n : Nat) : Nat :=
  let q := a / n
  let r := a % n
  if 2 * r < n then q
  else if n < 2 * r then q + 1
  else if q % 2 = 0 then q else q + 1

/-- Descriptor sizes used by `__send_provide_settings_structure_handler`
(`pairing_helper.py` lines 574-580): device settings structures are 12 bytes,
register settings structures 15 bytes. -/
def settings_descriptor_size : SettingsTypes → Nat
  | .device => 12
  | .register => 15

/-- The 16-bit settings-length value appended to the
`PROVIDE_SETTINGS_STRUCTURE` frame by
`PairingHelper.__send_provide_settings_structure_handler`
(`pairing_helper.py` lines 533-606, the value whose high and low bytes are
appended at lines 591-602).  `max_packet_length` is the device's
`get_max_packet_length()` (assumed at least 5, so `- 5` stays nonnegative);
`start_address` and `settings_type` come from `get_reading_setting()`;
`settings_size` is `len(get_settings_by_type(device, settings_type))`.  The
address arithmetic is carried out in `Int` exactly as Python does. -/
def provide_settings_structure_count (max_packet_length start_address
    settings_size : Nat) (settings_type : SettingsTypes) : Int :=
  let max_readable_settings_count : Int :=
    python_round_div (max_packet_length - 5) (settings_descriptor_size settings_type)
  let max_readable_addresses : Int := start_address + max_readable_settings_count - 1
  if (settings_size : Int) ≤ max_readable_addresses + 1 then
    if start_address = 0 then (settings_size : Int)
    else (settings_size : Int) - start_address
  else
    max_readable_settings_count

end PairingHelper

namespace PjonTransport

/-- `pjon.PJON_ACK` (the PJON library's ACK code). -/
def PJON_ACK : Nat := 6

/-- The `while (time.time() - current_time) <= waiting_time` busy-poll of
`PjonTransport.send_packet` (`pjon.py` lines 161-171): repeatedly call
`self.loop()` and return `True` at the first `PJON_ACK` result; once the
window elapses return `False`.  `loop_results` is the finite sequence of
`send_packet_result` values the link's loop yields inside the window. -/
def ack_poll : List Nat → Bool
  | [] => false
  | r :: rest => if r = PJON_ACK then true else ack_poll rest

/-- `PjonTransport.send_packet` (`pjon.py` lines 112-173) after the frame is
handed to the link: with a positive `waiting_time` the ACK busy-poll decides
the result, otherwise the function returns `True` unconditionally. -/
def send_packet_result (waiting_time : ℚ) (loop_results : List Nat) : Bool :=
  if 0 < waiting_time then ack_poll loop_results else true

end PjonTransport

/-- A registry occupying every assignable bus address `1, ..., 252`
(used to exercise address-allocation exhaustion). -/
def full_registry : List DeviceEntity :=
  (List.range' 1 252).map
    (fun a => { id := a, address := a, serialNumber := "occupied",
                maxPacketLength := 8 })

/-- A ready (`STATE_RUNNING`) device, id 5 at bus address 2. -/
def sample_ready_device : DeviceEntity :=
  { id := 5, address := 2, serialNumber := "AABBCC", maxPacketLength := 24,
    state := .running }

/-- A digital-input register owned by device 5. -/
def sample_di_register : RegisterEntity :=
  { id := 9, key := "k", channelId := 1, deviceId := 5, address := 0,
    type := .digitalInput, dataType := .boolean }

/-- A digital-output register owned by device 5, value never set. -/
def sample_do_register : RegisterEntity :=
  { id := 10, key := "k2", channelId := 1, deviceId := 5, address := 1,
    type := .digitalOutput, dataType := .boolean }

/-! ## Theorems -/

/-- A device in state `UNKNOWN` whose attempt budget is not exhausted gets a
`GET_STATE` request from the checking handler. -/
lemma handle_unknown_effects (d : DeviceEntity) (now : ℚ) (sendOk : Bool)
    (hstate : d.state = .unknown) (hatt : d.attempts < MAX_TRANSMIT_ATTEMPTS) :
    (CheckingHandler.handle now sendOk d).2 =
      [Effect.sendPacket d.address [Packets.getState.value, FB_CONTENT_TERMINATOR] 1] := by
  unfold CheckingHandler.handle
  rw [if_neg (Nat.not_le.mpr hatt)]
  cases sendOk <;>
    simp [hstate, DeviceEntity.is_lost, CheckingHandler.send_get_device_state_handler,
      DeviceEntity.increment_attempts, DeviceEntity.set_waiting_for_packet,
      DeviceEntity.set_last_packet_timestamp, DeviceEntity.reset_communication]

/-- `ack_poll` succeeds exactly when some polled loop result is `PJON_ACK`. -/
lemma ack_poll_eq_true_iff (polls : List Nat) :
    PjonTransport.ack_poll polls = true ↔ PjonTransport.PJON_ACK ∈ polls := by
  induction polls with
  | nil => simp [PjonTransport.ack_poll]
  | cons r rest ih =>
    by_cases hr : r = PjonTransport.PJON_ACK
    · subst hr
      simp [PjonTransport.ack_poll]
    · have hr2 : PjonTransport.PJON_ACK ≠ r := fun h => hr h.symm
      simp [PjonTransport.ack_poll, hr, hr2, ih]

/-- C9: processing a received `SET_STATE` packet leaves the registry unchanged
and emits no effect, for every sender address and payload: the receiver only
looks the device up and validates the payload length, and neither outcome
mutates any state. -/
theorem claim9_set_state_receiver_no_effect (devices : List DeviceEntity)
    (sender_address : Nat) (payload : List Nat) (payload_length : Nat) :
    CheckingHandler.set_state_receiver devices sender_address payload payload_length
      = (devices, []) := by
  unfold CheckingHandler.set_state_receiver
  cases get_device_by_address devices sender_address with
  | none => rfl
  | some d =>
    by_cases h : payload_length ≠ 3 <;> simp [h]

/-- C10: in `publish`, when the resolved register is a DO and the published
value is the string `"toggle"`, the commanded value is `false` exactly when
the stored value is the boolean `true`, and `true` for every other stored
value; in particular a never-set register (stored value `none`) is commanded
to `true`. -/
theorem claim10_toggle_negates_stored_true (register : RegisterEntity)
    (h : register.type = .digitalOutput) :
    (publish_expected register (some (.text "toggle")) = some (.boolean false) ↔
      register.value = some (.boolean true)) ∧
    (register.value ≠ some (.boolean true) →
      publish_expected register (some (.text "toggle")) = some (.boolean true)) ∧
    (register.value = none →
      publish_expected register (some (.text "toggle")) = some (.boolean true)) := by
  by_cases hv : register.value = some (.boolean true) <;>
    simp [publish_expected, h, hv]

/-- C10 witness: a DO register whose value was never set is commanded to
`true` by `"toggle"`. -/
theorem claim10_witness :
    publish_expected sample_do_register (some (.text "toggle"))
      = some (.boolean true) :=
  (claim10_toggle_negates_stored_true sample_do_register rfl).2.2 rfl

/-- C6: for every register whose type is neither DO nor AO,
`write_value_to_register` drops the request: no frame is sent and the
registry, the register (its stored value included), and every device's
attempt counter and expected-reply latch are unchanged. -/
theorem claim6_non_writable_register_dropped (devices : List DeviceEntity)
    (now : ℚ) (sendOk : Bool) (register : RegisterEntity) (write_value : Option Value)
    (h : register.type = .digitalInput ∨ register.type = .analogInput) :
    WritingHandler.write_value_to_register devices now sendOk register write_value
      = (devices, register, []) := by
  unfold WritingHandler.write_value_to_register
  cases get_device_by_id devices register.deviceId with
  | none => rfl
  | some device =>
    rcases h with h | h <;>
      by_cases hr : device.is_ready = false <;>
      simp [h, hr]

/-- C6 witness: a write to a DI register of a ready device is dropped. -/
theorem claim6_witness :
    WritingHandler.write_value_to_register [sample_ready_device] 100 true
        sample_di_register (some (.boolean true))
      = ([sample_ready_device], sample_di_register, []) :=
  claim6_non_writable_register_dropped [sample_ready_device] 100 true
    sample_di_register (some (.boolean true)) (Or.inl rfl)

/-- C8 counterexample: with a positive waiting time and no ACK observed
within the window, `send_packet` returns `False`, not `True` as the claim
states (here: a 1-second window in which the link loop yields a single
non-ACK result). -/
theorem claim8_counterexample :
    PjonTransport.send_packet_result 1 [0] = false := by decide

/-- C8 (amended): with a positive waiting time `send_packet` returns `True`
exactly when an ACK is observed within the window and `False` otherwise;
with a zero waiting time it returns `True` unconditionally once the frame is
handed off. -/
theorem claim8_send_packet_ack_window (waiting_time : ℚ) (loop_results : List Nat) :
    (0 < waiting_time →
      (PjonTransport.send_packet_result waiting_time loop_results = true ↔
        PjonTransport.PJON_ACK ∈ loop_results)) ∧
    (waiting_time = 0 →
      PjonTransport.send_packet_result waiting_time loop_results = true) := by
  constructor
  · intro hw
    rw [PjonTransport.send_packet_result, if_pos hw]
    exact ack_poll_eq_true_iff loop_results
  · intro hw
    subst hw
    rw [PjonTransport.send_packet_result, if_neg (lt_irrefl 0)]

/-- C8 witness: an ACK inside a 1-second window yields `True`; a zero window
yields `True` with no polling at all. -/
theorem claim8_witness :
    PjonTransport.send_packet_result 1 [PjonTransport.PJON_ACK] = true ∧
    PjonTransport.send_packet_result 0 [] = true :=
  ⟨((claim8_send_packet_ack_window 1 [PjonTransport.PJON_ACK]).1 (by norm_num)).mpr
      (by simp),
   (claim8_send_packet_ack_window 0 []).2 rfl⟩

/-- C7 counterexample: a device with max packet length 23 asks for
`round(18 / 12) = 2` device-setting descriptors per packet (Python banker's
rounding), not `(23 - 5) // 12 = 1` as the claim's floor division states
(here: 10 device settings, page starting at address 0). -/
theorem claim7_counterexample :
    PairingHelper.provide_settings_structure_count 23 0 10 .device = 2 ∧
    ((23 - 5 : Nat) / 12 : Nat) = 1 ∧
    PairingHelper.provide_settings_structure_count 23 0 10 .device
      ≠ (((23 - 5 : Nat) / 12 : Nat) : Int) := by
  refine ⟨by decide, by decide, by decide⟩

/-- C7 (amended): for a device with max packet length `L ≥ 5`, a
`PROVIDE_SETTINGS_STRUCTURE` request asks for exactly
`round((L - 5) / 12)` descriptors per packet for device settings and
`round((L - 5) / 15)` for register settings — Python's round half to even,
not floor division — whenever more settings remain than fit in the page. -/
theorem claim7_settings_structure_page_size (L start_address settings_size : Nat)
    (settings_type : SettingsTypes) (h5 : 5 ≤ L)
    (hpage : start_address + PairingHelper.python_round_div (L - 5)
        (PairingHelper.settings_descriptor_size settings_type) < settings_size) :
    PairingHelper.provide_settings_structure_count L start_address settings_size
        settings_type
      = (PairingHelper.python_round_div (L - 5)
          (PairingHelper.settings_descriptor_size settings_type) : Int) := by
  unfold PairingHelper.provide_settings_structure_count
  rw [if_neg]
  omega

/-- C7 witness: max packet length 23, page start 0, 10 device settings: the
request asks for `round(18 / 12) = 2` descriptors. -/
theorem claim7_witness :
    PairingHelper.provide_settings_structure_count 23 0 10 .device
      = (PairingHelper.python_round_div 18 12 : Int) :=
  claim7_settings_structure_page_size 23 0 10 .device (by norm_num) (by decide)

/-- C2: whenever a device's consecutive transmit-attempt counter has reached
`MAX_TRANSMIT_ATTEMPTS` (5) with no matching reply, the next
checking-handler step sets its state to `LOST`, records a non-zero
lost-since timestamp, clears the expected-reply latch, resets the attempt
counter to zero, and propagates the new state upstream (and sends nothing,
since the ping delay has not yet elapsed). -/
theorem claim2_max_attempts_marks_lost (device : DeviceEntity) (now : ℚ)
    (sendOk : Bool) (hatt : MAX_TRANSMIT_ATTEMPTS ≤ device.attempts)
    (hnow : 0 < now) :
    (CheckingHandler.handle now sendOk device).1.state = .lost ∧
    (CheckingHandler.handle now sendOk device).1.lostTimestamp = now ∧
    (CheckingHandler.handle now sendOk device).1.lostTimestamp ≠ 0 ∧
    (CheckingHandler.handle now sendOk device).1.waitingForPacket = none ∧
    (CheckingHandler.handle now sendOk device).1.attempts = 0 ∧
    (CheckingHandler.handle now sendOk device).2 =
      [Effect.propagateDeviceState device.address DeviceStates.lost] := by
  have hlost : device.set_state now .lost =
      { device with
          state := .lost, waitingForPacket := none, attempts := 0,
          lostTimestamp := now, lastPacketTimestamp := 0 } := by
    simp [DeviceEntity.set_state, DeviceEntity.reset_communication]
  have hhandle : CheckingHandler.handle now sendOk device =
      ({ device with
          state := .lost, waitingForPacket := none, attempts := 0,
          lostTimestamp := now, lastPacketTimestamp := 0 },
        [Effect.propagateDeviceState device.address DeviceStates.lost]) := by
    unfold CheckingHandler.handle
    rw [hlost]
    norm_num [hatt, DeviceEntity.is_lost, PING_DELAY, sub_self]
    exact fun h => nomatch h
  rw [hhandle]
  refine ⟨rfl, rfl, ?_, rfl, rfl, rfl⟩
  exact hnow.ne'

/-- C2 witness: a device with 5 attempts, at time 100, becomes lost with
timestamp 100, cleared latch, zero attempts, and one upstream propagation. -/
theorem claim2_witness :
    (CheckingHandler.handle 100 true
        { sample_ready_device with attempts := 5 }).1.state = .lost ∧
    (CheckingHandler.handle 100 true
        { sample_ready_device with attempts := 5 }).1.lostTimestamp ≠ 0 ∧
    (CheckingHandler.handle 100 true
        { sample_ready_device with attempts := 5 }).2 =
      [Effect.propagateDeviceState 2 DeviceStates.lost] := by
  have h := claim2_max_attempts_marks_lost
    { sample_ready_device with attempts := 5 } 100 true (by decide) (by norm_num)
  exact ⟨h.1, h.2.2.1, h.2.2.2.2.2⟩

/-- C3: for every known device, processing a PONG reply sets the device state
to `UNKNOWN`, zeroes the lost-since timestamp, clears the expected-reply
latch and the attempt counter, stores the device back, and propagates the
state upstream; consequently the checking handler's next step for that
device emits a `GET_STATE` request. -/
theorem claim3_pong_revives_device (devices : List DeviceEntity) (now : ℚ)
    (sender_address : Nat) (device : DeviceEntity)
    (hfound : get_device_by_address devices sender_address = some device) :
    CheckingHandler.pong_receiver devices now sender_address =
      (update_device devices (device.set_alive now),
        [Effect.propagateDeviceState device.address DeviceStates.unknown]) ∧
    (device.set_alive now).state = .unknown ∧
    (device.set_alive now).lostTimestamp = 0 ∧
    (device.set_alive now).waitingForPacket = none ∧
    (device.set_alive now).attempts = 0 ∧
    ∀ (later : ℚ) (sendOk : Bool),
      (CheckingHandler.handle later sendOk (device.set_alive now)).2 =
        [Effect.sendPacket device.address
          [Packets.getState.value, FB_CONTENT_TERMINATOR] 1] := by
  have halive : device.set_alive now =
      { device with
          state := .unknown, waitingForPacket := none, attempts := 0,
          lostTimestamp := 0 } := by
    simp [DeviceEntity.set_alive, DeviceEntity.set_state,
      DeviceEntity.reset_communication]
  refine ⟨?_, ?_, ?_, ?_, ?_, ?_⟩
  · unfold CheckingHandler.pong_receiver
    rw [hfound]
    simp [halive]
  · rw [halive]
  · rw [halive]
  · rw [halive]
  · rw [halive]
  · intro later sendOk
    have := handle_unknown_effects (device.set_alive now) later sendOk
      (by rw [halive]) (by rw [halive]; norm_num [MAX_TRANSMIT_ATTEMPTS])
    rw [this, halive]

/-- C3 witness: a lost device at address 2 with pending attempts is revived
by a PONG, and its next checking step emits a `GET_STATE` frame. -/
theorem claim3_witness :
    (CheckingHandler.pong_receiver
        [{ sample_ready_device with
            state := .lost, lostTimestamp := 50,
            attempts := 3, waitingForPacket := some .pong }] 100 2).2 =
      [Effect.propagateDeviceState 2 DeviceStates.unknown] ∧
    (CheckingHandler.handle 200 true
        (({ sample_ready_device with
            state := .lost, lostTimestamp := 50,
            attempts := 3, waitingForPacket := some .pong } :
              DeviceEntity).set_alive 100)).2 =
      [Effect.sendPacket 2 [Packets.getState.value, FB_CONTENT_TERMINATOR] 1] := by
  have h := claim3_pong_revives_device
    [{ sample_ready_device with
        state := .lost, lostTimestamp := 50,
        attempts := 3, waitingForPacket := some .pong }] 100 2
    { sample_ready_device with
        state := .lost, lostTimestamp := 50,
        attempts := 3, waitingForPacket := some .pong }
    (by rfl)
  exact ⟨by rw [h.1]; rfl, by have h6 := h.2.2.2.2.2 200 true; rw [h6]; rfl⟩

/-- Packing the little-endian value of four in-range bytes restores them. -/
lemma nat_to_le_bytes4_of_le_bytes (b0 b1 b2 b3 : Nat) (h0 : b0 < 256)
    (h1 : b1 < 256) (h2 : b2 < 256) (h3 : b3 < 256) :
    RegistersHelper.nat_to_le_bytes4 (RegistersHelper.le_bytes_to_nat [b0, b1, b2, b3])
      = [b0, b1, b2, b3] := by
  have e0 : RegistersHelper.le_bytes_to_nat [b0, b1, b2, b3]
      = b0 + 256 * b1 + 65536 * b2 + 16777216 * b3 := by
    simp only [RegistersHelper.le_bytes_to_nat]
    ring
  unfold RegistersHelper.nat_to_le_bytes4
  rw [e0]
  simp only [List.cons.injEq]
  refine ⟨?_, ?_, ?_, ?_, trivial⟩ <;> omega

/-- The little-endian value of four in-range bytes fits 32 bits. -/
lemma le_bytes_lt (b0 b1 b2 b3 : Nat) (h0 : b0 < 256) (h1 : b1 < 256)
    (h2 : b2 < 256) (h3 : b3 < 256) :
    RegistersHelper.le_bytes_to_nat [b0, b1, b2, b3] < 2 ^ 32 := by
  simp only [RegistersHelper.le_bytes_to_nat]
  omega

/-- C5 counterexample: for a BOOL register, decoding a block of the register's
size (1 byte) yields null and re-encoding yields null again — not the
identity the claim states; and for a UINT8 register a block of the
register's size (1 byte) cannot be decoded at all, while a 4-byte block
round-trips to 4 bytes, not to `size_of(UINT8) = 1` bytes. -/
theorem claim5_counterexample :
    RegistersHelper.round_trip .boolean [0] = .ok none ∧
    (Except.ok none : Except Unit (Option (List Nat))) ≠ .ok (some [0]) ∧
    RegistersHelper.transform_value_from_bytes .uint8 [7] = .error () ∧
    data_type_size .uint8 = 1 ∧
    RegistersHelper.round_trip .uint8 [7, 0, 0, 0] = .ok (some [7, 0, 0, 0]) := by
  refine ⟨rfl, by simp, rfl, rfl, rfl⟩

/-- C5 (amended): byte blocks handled by the codec are always 4 bytes long,
regardless of the register's declared size.  For the six integer data types
(U8/U16/U32/I8/I16/I32) the encode-after-decode round trip is the identity
on any 4-byte block (so the encoded length is 4, the block length); for BOOL
and UNKNOWN (and the unhandled TIME/DATE/DATETIME types) both decode and
encode yield null.  FLOAT32 is outside this statement: its round trip goes
through IEEE-754 float conversion, which the model does not interpret. -/
theorem claim5_round_trip (data_type : DataTypes) (bytes : List Nat)
    (hlen : bytes.length = 4) (hb : bytes.all (fun b => b < 256) = true) :
    (RegistersHelper.is_integer_data_type data_type = true →
      RegistersHelper.round_trip data_type bytes = .ok (some bytes)) ∧
    (data_type = .boolean ∨ data_type = .unknown →
      RegistersHelper.round_trip data_type bytes = .ok none) := by
  match bytes, hlen with
  | [b0, b1, b2, b3], _ =>
    simp only [List.all_cons, List.all_nil, Bool.and_true, Bool.and_eq_true,
      decide_eq_true_eq] at hb
    obtain ⟨h0, h1, h2, h3⟩ := hb
    have hlt := le_bytes_lt b0 b1 b2 b3 h0 h1 h2 h3
    have hpack := nat_to_le_bytes4_of_le_bytes b0 b1 b2 b3 h0 h1 h2 h3
    constructor
    · intro hint
      have hcond : (([b0, b1, b2, b3] : List Nat).length = 4 ∧
          ([b0, b1, b2, b3] : List Nat).all (fun b => b < 256) = true) := by
        refine ⟨rfl, by simp [h0, h1, h2, h3]⟩
      cases data_type <;>
        simp only [RegistersHelper.is_integer_data_type] at hint <;>
        try exact absurd hint (by decide)
      case uint8 | uint16 | uint32 =>
        simp only [RegistersHelper.round_trip,
          RegistersHelper.transform_value_from_bytes, if_pos hcond, Except.bind,
          RegistersHelper.transform_value_to_bytes]
        rw [if_pos ⟨by positivity, by exact_mod_cast hlt⟩]
        rw [Int.toNat_natCast, hpack]
      case int8 | int16 | int32 =>
        simp only [RegistersHelper.round_trip,
          RegistersHelper.transform_value_from_bytes, if_pos hcond, Except.bind,
          RegistersHelper.transform_value_to_bytes]
        by_cases hsmall : RegistersHelper.le_bytes_to_nat [b0, b1, b2, b3] < 2 ^ 31
        · rw [if_pos hsmall]
          rw [if_pos ⟨by omega, by exact_mod_cast hsmall⟩]
          have hemod : ((RegistersHelper.le_bytes_to_nat [b0, b1, b2, b3] : Int))
              % (2 ^ 32) = (RegistersHelper.le_bytes_to_nat [b0, b1, b2, b3] : Int) := by
            omega
          rw [hemod, Int.toNat_natCast, hpack]
        · rw [if_neg hsmall]
          rw [if_pos (by omega)]
          have hemod : ((RegistersHelper.le_bytes_to_nat [b0, b1, b2, b3] : Int)
              - 2 ^ 32) % (2 ^ 32)
              = (RegistersHelper.le_bytes_to_nat [b0, b1, b2, b3] : Int) := by
            omega
          rw [hemod, Int.toNat_natCast, hpack]
    · rintro (rfl | rfl) <;> rfl

/-- C5 witness: a UINT16 register round-trips the block `[1, 2, 3, 4]`
unchanged, and a BOOL register maps the same block to null. -/
theorem claim5_witness :
    RegistersHelper.round_trip .uint16 [1, 2, 3, 4] = .ok (some [1, 2, 3, 4]) ∧
    RegistersHelper.round_trip .boolean [1, 2, 3, 4] = .ok none :=
  ⟨(claim5_round_trip .uint16 [1, 2, 3, 4] (by decide) (by decide)).1 (by decide),
   (claim5_round_trip .boolean [1, 2, 3, 4] (by decide) (by decide)).2 (Or.inl rfl)⟩

/-- Unfolding equation for `process_bits` on the empty bit list. -/
lemma process_bits_nil (count addr : Nat) (vals : Nat → Option Bool) :
    ReadingHandler.process_bits count [] addr vals = (vals, addr) := rfl

/-- Unfolding equation for `process_bits` on a bit-cons. -/
lemma process_bits_cons (count bit : Nat) (rest : List Nat) (addr : Nat)
    (vals : Nat → Option Bool) :
    ReadingHandler.process_bits count (bit :: rest) addr vals =
      if count ≤ addr + 1 then
        ((if addr < count then
            ReadingHandler.set_register_value vals addr (bit &&& 0x01 != 0)
          else vals), addr + 1)
      else
        ReadingHandler.process_bits count rest (addr + 1)
          (if addr < count then
            ReadingHandler.set_register_value vals addr (bit &&& 0x01 != 0)
          else vals) := rfl

/-- Unfolding equation for `process_data_bytes` on a byte-cons. -/
lemma process_data_bytes_cons (count b : Nat) (rest : List Nat) (addr : Nat)
    (vals : Nat → Option Bool) :
    ReadingHandler.process_data_bytes count (b :: rest) addr vals =
      ReadingHandler.process_data_bytes count rest
        (ReadingHandler.process_bits count (ReadingHandler.data_byte_bits b) addr vals).2
        (ReadingHandler.process_bits count (ReadingHandler.data_byte_bits b) addr vals).1 :=
  rfl

/-- The inner bit loop writes bit `j` of the byte at address `addr + j`, for
every `j` below both the bit-list length and the register count, and leaves
every other address untouched. -/
lemma process_bits_fst (count : Nat) :
    ∀ (bits : List Nat) (addr : Nat) (vals : Nat → Option Bool) (x : Nat),
      (ReadingHandler.process_bits count bits addr vals).1 x =
        if addr ≤ x ∧ x < addr + bits.length ∧ x < count then
          some (bits.getD (x - addr) 0 &&& 0x01 != 0)
        else vals x := by
  intro bits
  induction bits with
  | nil =>
    intro addr vals x
    rw [process_bits_nil]
    rw [if_neg]
    simp only [List.length_nil]
    omega
  | cons bit rest ih =>
    intro addr vals x
    rw [process_bits_cons]
    simp only [List.length_cons]
    by_cases hbreak : count ≤ addr + 1
    · rw [if_pos hbreak]
      by_cases haddr : addr < count
      · rw [if_pos haddr]
        by_cases hx : x = addr
        · subst hx
          rw [if_pos ⟨le_refl x, by omega, haddr⟩]
          simp [ReadingHandler.set_register_value]
        · rw [if_neg (by omega)]
          simp [ReadingHandler.set_register_value, hx]
      · rw [if_neg haddr, if_neg (by omega)]
    · rw [if_neg hbreak]
      rw [if_pos (by omega)]
      rw [ih (addr + 1) _ x]
      simp only [List.length_cons] at *
      by_cases hx : x = addr
      · subst hx
        rw [if_neg (by omega), if_pos ⟨le_refl x, by omega, by omega⟩]
        simp [ReadingHandler.set_register_value]
      · by_cases hcond : addr + 1 ≤ x ∧ x < addr + 1 + rest.length ∧ x < count
        · rw [if_pos hcond, if_pos (by omega)]
          have hidx : x - addr = (x - (addr + 1)) + 1 := by omega
          rw [hidx, List.getD_cons_succ]
        · rw [if_neg hcond, if_neg (by omega)]
          simp [ReadingHandler.set_register_value, hx]

/-- Final address of the inner bit loop: the full `addr + length` advance
when every processed address stays below the register count, else the
break address. -/
lemma process_bits_snd (count : Nat) :
    ∀ (bits : List Nat), bits ≠ [] → ∀ (addr : Nat) (vals : Nat → Option Bool),
      (ReadingHandler.process_bits count bits addr vals).2 =
        if addr + bits.length ≤ count then addr + bits.length
        else max count (addr + 1) := by
  intro bits
  induction bits with
  | nil => intro h; exact absurd rfl h
  | cons bit rest ih =>
    intro _ addr vals
    rw [process_bits_cons]
    cases rest with
    | nil =>
      by_cases hbreak : count ≤ addr + 1
      · rw [if_pos hbreak]
        simp only [List.length_cons, List.length_nil]
        split <;> omega
      · rw [if_neg hbreak, process_bits_nil]
        simp only [List.length_cons, List.length_nil]
        split <;> omega
    | cons r rs =>
      by_cases hbreak : count ≤ addr + 1
      · rw [if_pos hbreak]
        simp only [List.length_cons]
        split <;> omega
      · rw [if_neg hbreak]
        rw [ih (by simp) (addr + 1) _]
        simp only [List.length_cons]
        split <;> split <;> omega

/-- The inner bit loop never moves the running address backwards. -/
lemma process_bits_snd_ge (count : Nat) (bits : List Nat) (addr : Nat)
    (vals : Nat → Option Bool) :
    addr ≤ (ReadingHandler.process_bits count bits addr vals).2 := by
  cases bits with
  | nil => rw [process_bits_nil]
  | cons bit rest =>
    rw [process_bits_snd count (bit :: rest) (by simp) addr vals]
    split <;> omega

/-- The outer byte loop never touches addresses below its starting address. -/
lemma process_data_bytes_eq_of_lt (count : Nat) :
    ∀ (bytes : List Nat) (addr : Nat) (vals : Nat → Option Bool) (x : Nat),
      x < addr → ReadingHandler.process_data_bytes count bytes addr vals x = vals x := by
  intro bytes
  induction bytes with
  | nil => intro addr vals x _; rfl
  | cons b rest ih =>
    intro addr vals x hx
    rw [process_data_bytes_cons]
    have h2 := process_bits_snd_ge count (ReadingHandler.data_byte_bits b) addr vals
    rw [ih _ _ x (by omega)]
    rw [process_bits_fst]
    rw [if_neg (by omega)]

/-- The bit list of a data byte has the byte's binary digits, LSB first. -/
lemma data_byte_bits_getD (b i : Nat) (hi : i < 8) :
    (ReadingHandler.data_byte_bits b).getD i 0 = b / 2 ^ i % 2 := by
  interval_cases i <;> simp [ReadingHandler.data_byte_bits]

/-- Testing the low bit of a binary digit is testing equality with 1. -/
lemma digit_and_one (b i : Nat) : (b / 2 ^ i % 2 &&& 0x01 != 0) = decide (b / 2 ^ i % 2 = 1) := by
  rcases Nat.mod_two_eq_zero_or_one (b / 2 ^ i) with h | h <;> rw [h] <;> rfl

/-- C4: when a `READ_MULTIPLE_REGISTERS` response for a digital register type
with start address `s` is processed, every payload data byte `k` and bit
index `i < 8` with `s + 8 * k + i` below the device's register count for
that type sets the register at address `s + 8 * k + i` to the boolean value
of bit `i` of data byte `k`, least-significant bit first. -/
theorem claim4_digital_read_bits (registers_count : Nat) (data_bytes : List Nat)
    (s k i : Nat) (vals : Nat → Option Bool)
    (hk : k < data_bytes.length) (hi : i < 8)
    (hlt : s + 8 * k + i < registers_count) :
    ReadingHandler.process_data_bytes registers_count data_bytes s vals (s + 8 * k + i)
      = some (decide (data_bytes.getD k 0 / 2 ^ i % 2 = 1)) := by
  induction data_bytes generalizing k s vals with
  | nil => simp at hk
  | cons b rest ih =>
    rw [process_data_bytes_cons]
    cases k with
    | zero =>
      have hx : s + 8 * 0 + i = s + i := by omega
      rw [hx] at hlt ⊢
      have hlen : (ReadingHandler.data_byte_bits b).length = 8 := rfl
      have hne : ReadingHandler.data_byte_bits b ≠ [] := by
        simp [ReadingHandler.data_byte_bits]
      have hsnd := process_bits_snd registers_count
        (ReadingHandler.data_byte_bits b) hne s vals
      rw [hlen] at hsnd
      have hgt : s + i <
          (ReadingHandler.process_bits registers_count
            (ReadingHandler.data_byte_bits b) s vals).2 := by
        rw [hsnd]; split <;> simp <;> omega
      rw [process_data_bytes_eq_of_lt registers_count rest _ _ _ hgt]
      rw [process_bits_fst]
      rw [hlen]
      rw [if_pos ⟨by omega, by omega, hlt⟩]
      have hsub : s + i - s = i := by omega
      rw [hsub, data_byte_bits_getD b i hi, digit_and_one]
      simp
    | succ k =>
      have hle : s + 8 ≤ registers_count := by omega
      have hne : ReadingHandler.data_byte_bits b ≠ [] := by
        simp [ReadingHandler.data_byte_bits]
      have hsnd := process_bits_snd registers_count
        (ReadingHandler.data_byte_bits b) hne s vals
      have hlen : (ReadingHandler.data_byte_bits b).length = 8 := rfl
      rw [hlen] at hsnd
      rw [if_pos hle] at hsnd
      rw [hsnd]
      have harith : s + 8 * (k + 1) + i = (s + 8) + 8 * k + i := by omega
      rw [harith]
      have hrec := ih (s + 8) k
        (ReadingHandler.process_bits registers_count
          (ReadingHandler.data_byte_bits b) s vals).1
        (by simpa using hk) (by omega)
      rw [hrec]
      simp

/-- C4 witness (the spec's digital read burst): 10 DI registers, response
data bytes `0b10100101, 0b00000011` at start address 0 set address 0 true,
1 false, 5 true and 8 true. -/
theorem claim4_witness :
    ReadingHandler.process_data_bytes 10 [165, 3] 0 (fun _ => none) 0 = some true ∧
    ReadingHandler.process_data_bytes 10 [165, 3] 0 (fun _ => none) 1 = some false ∧
    ReadingHandler.process_data_bytes 10 [165, 3] 0 (fun _ => none) 5 = some true ∧
    ReadingHandler.process_data_bytes 10 [165, 3] 0 (fun _ => none) 8 = some true := by
  refine ⟨?_, ?_, ?_, ?_⟩
  · have h := claim4_digital_read_bits 10 [165, 3] 0 0 0 (fun _ => none)
      (by norm_num) (by norm_num) (by norm_num)
    simpa using h
  · have h := claim4_digital_read_bits 10 [165, 3] 0 0 1 (fun _ => none)
      (by norm_num) (by norm_num) (by norm_num)
    simpa using h
  · have h := claim4_digital_read_bits 10 [165, 3] 0 0 5 (fun _ => none)
      (by norm_num) (by norm_num) (by norm_num)
    simpa using h
  · have h := claim4_digital_read_bits 10 [165, 3] 0 1 0 (fun _ => none)
      (by norm_num) (by norm_num) (by norm_num)
    simpa using h

/-- `List.find?` over an ascending range returns the least satisfying
element. -/
lemma find?_range'_spec (p : Nat → Bool) :
    ∀ (n s a : Nat), (List.range' s n).find? p = some a →
      p a = true ∧ s ≤ a ∧ a < s + n ∧ ∀ b, s ≤ b → b < a → p b = false := by
  intro n
  induction n with
  | zero => intro s a h; simp [List.range'] at h
  | succ n ih =>
    intro s a h
    rw [List.range'_succ] at h
    by_cases hp : p s
    · rw [List.find?_cons_of_pos _ hp] at h
      injection h with h
      subst h
      exact ⟨hp, le_refl s, by omega, fun b hb1 hb2 => absurd hb2 (by omega)⟩
    · rw [List.find?_cons_of_neg _ hp] at h
      obtain ⟨h1, h2, h3, h4⟩ := ih (s + 1) a h
      refine ⟨h1, by omega, by omega, ?_⟩
      intro b hb1 hb2
      by_cases hbs : b = s
      · subst hbs
        exact Bool.eq_false_iff.mpr hp
      · exact h4 b (by omega) hb2

/-- C1 (amended): `create_device` assigns the new device the lowest bus
address in `1, ..., 252` (the Python scan `range(1, 253)` never reaches
address 253) not already held by any known device, stores the device with
that address, the given serial number and max packet length and state
`CONNECTED`, and fails — leaving the registry unchanged — exactly when every
address in `1, ..., 252` is occupied. -/
theorem claim1_create_device (devices : List DeviceEntity) (newId : Nat) (now : ℚ)
    (serial_number : String) (max_packet_length : Nat) :
    ((∃ a, 1 ≤ a ∧ a < MAX_ADDRESS ∧ a ∉ devices.map (fun e => e.address)) →
      ∃ d, create_device devices newId now serial_number max_packet_length
          = (.ok d, devices ++ [d]) ∧
        1 ≤ d.address ∧ d.address < MAX_ADDRESS ∧
        d.address ∉ devices.map (fun e => e.address) ∧
        (∀ b, 1 ≤ b → b < MAX_ADDRESS → b ∉ devices.map (fun e => e.address) →
          d.address ≤ b) ∧
        d.serialNumber = serial_number ∧ d.maxPacketLength = max_packet_length ∧
        d.state = .connected) ∧
    ((∀ a, 1 ≤ a → a < MAX_ADDRESS → a ∈ devices.map (fun e => e.address)) →
      create_device devices newId now serial_number max_packet_length
        = (.error (), devices)) := by
  have hM : MAX_ADDRESS = 253 := rfl
  constructor
  · rintro ⟨a, ha1, ha2, ha3⟩
    cases hf : (List.range' 1 (MAX_ADDRESS - 1)).find?
        (fun i => !((devices.map fun d => d.address).contains i)) with
    | none =>
      exfalso
      rw [List.find?_eq_none] at hf
      exact hf a (List.mem_range'_1.mpr ⟨ha1, by omega⟩) (by simpa using ha3)
    | some fa =>
      obtain ⟨hpa, h1, h2, hleast⟩ := find?_range'_spec _ _ _ _ hf
      refine ⟨{ id := newId, address := fa, serialNumber := serial_number,
                maxPacketLength := max_packet_length, state := .connected },
        ?_, h1, by show fa < MAX_ADDRESS; omega, by simpa using hpa,
        ?_, rfl, rfl, rfl⟩
      · simp only [create_device, hf]
        simp [DeviceEntity.set_state]
      · intro b hb1 hb2 hb3
        show fa ≤ b
        by_contra hcon
        push_neg at hcon
        have hfalse := hleast b hb1 (by omega)
        have htrue : (fun i => !((devices.map fun d => d.address).contains i)) b
            = true := by simpa using hb3
        simp only [hfalse] at htrue
        exact Bool.noConfusion htrue
  · intro hall
    cases hf : (List.range' 1 (MAX_ADDRESS - 1)).find?
        (fun i => !((devices.map fun d => d.address).contains i)) with
    | some fa =>
      exfalso
      obtain ⟨hpa, h1, h2, -⟩ := find?_range'_spec _ _ _ _ hf
      have hmem := hall fa h1 (by omega)
      have hnot : fa ∉ devices.map (fun e => e.address) := by simpa using hpa
      exact hnot hmem
    | none =>
      simp only [create_device, hf]

set_option maxRecDepth 8192 in
/-- C1 counterexample: with every address `1, ..., 252` taken, address 253 is
inside the claim's `1..253` range and is held by no device, yet
`create_device` fails (and adds nothing) instead of assigning it. -/
theorem claim1_counterexample :
    (1 ≤ (253 : Nat) ∧ (253 : Nat) ≤ 253) ∧
    (253 : Nat) ∉ full_registry.map (fun e => e.address) ∧
    create_device full_registry 0 0 "NEW" 8 = (.error (), full_registry) := by
  refine ⟨by norm_num, by decide, rfl⟩

/-- C1 witness: on an empty registry the new device gets address 1. -/
theorem claim1_witness :
    ∃ d, create_device [] 1 0 "AABBCC" 255 = (.ok d, [d]) ∧ d.address = 1 := by
  obtain ⟨d, heq, hge, hlt, hfree, hleast, -, -, -⟩ :=
    (claim1_create_device [] 1 0 "AABBCC" 255).1
      ⟨1, le_refl 1, by norm_num [MAX_ADDRESS], by simp⟩
  exact ⟨d, by simpa using heq,
    le_antisymm (hleast 1 (le_refl 1) (by norm_num [MAX_ADDRESS]) (by simp)) hge⟩

end FbBus
